import Mathlib

/-!
Verification development for the AirAware risk scoring and alerting engine.

The definitions below are a shallow embedding, over exact rationals, of the
Python source under `src/mlops`:

* `src/mlops/serving/model_server.py` — the rule-based fallback path
  (`NORMAL_RANGES`, `calculate_aqi_from_pm25`, `calculate_anomaly_score`,
  `calculate_risk_level`, `make_prediction`);
* `src/mlops/models/ensemble_model.py` — `EnsembleModel.predict` and
  `EnsembleModel._classify_risk`;
* `src/mlops/models/anomaly_detector.py` — `AnomalyDetector.predict_scores`;
* `src/mlops/monitoring/alerting.py` — `AlertManager.send_alert`;
* `src/mlops/serving/realtime_predictor.py` — `RealtimePredictor`.

Python floats are modelled as `ℚ`; the IEEE special values NaN/±Inf, which the
code explicitly guards against, are modelled by the `EFloat` type.  Python's
`round` (round-half-to-even, as used by `round(x)` and `round(x, 3)`) is
modelled exactly by `pyRound` / `pyRound3`.  Risk levels and AQI categories are
kept as the literal strings the source produces.
-/

/-- Python's builtin `round` to an integer: round half to even. -/
def pyRound (q : ℚ) : ℤ :=
  if q - ⌊q⌋ < 1/2 then ⌊q⌋
  else if 1/2 < q - ⌊q⌋ then ⌊q⌋ + 1
  else if ⌊q⌋ % 2 = 0 then ⌊q⌋ else ⌊q⌋ + 1

/-- Python's `round(x, 3)`: round half to even at three decimal places. -/
def pyRound3 (q : ℚ) : ℚ := (pyRound (q * 1000) : ℚ) / 1000

theorem pyRound_le (q : ℚ) : (pyRound q : ℚ) ≤ q + 1/2 := by
  unfold pyRound
  have hfl : (⌊q⌋ : ℚ) ≤ q := Int.floor_le q
  have hfu : q - 1 < (⌊q⌋ : ℚ) := by
    have := Int.lt_floor_add_one q
    linarith
  split_ifs with h1 h2 h3 <;> push_cast <;> linarith

theorem le_pyRound (q : ℚ) : q - 1/2 ≤ (pyRound q : ℚ) := by
  unfold pyRound
  have hfl : (⌊q⌋ : ℚ) ≤ q := Int.floor_le q
  have hfu : q - 1 < (⌊q⌋ : ℚ) := by
    have := Int.lt_floor_add_one q
    linarith
  split_ifs with h1 h2 h3 <;> push_cast <;> linarith

theorem pyRound_mono {p q : ℚ} (h : p ≤ q) : pyRound p ≤ pyRound q := by
  by_contra hc
  push_neg at hc
  have h3 : (pyRound q : ℚ) + 1 ≤ (pyRound p : ℚ) := by
    exact_mod_cast Int.add_one_le_iff.mpr hc
  have h1 : (pyRound p : ℚ) ≤ p + 1/2 := pyRound_le p
  have h2 : q - 1/2 ≤ (pyRound q : ℚ) := le_pyRound q
  have hpq : p = q := by linarith
  subst hpq
  exact lt_irrefl _ hc

theorem pyRound_intCast (n : ℤ) : pyRound (n : ℚ) = n := by
  unfold pyRound
  rw [Int.floor_intCast]
  norm_num

theorem pyRound_le_int {q : ℚ} {b : ℤ} (h : q ≤ (b : ℚ)) : pyRound q ≤ b := by
  have h1 : (pyRound q : ℚ) ≤ q + 1/2 := pyRound_le q
  have h2 : (pyRound q : ℚ) < (b : ℚ) + 1 := by linarith
  exact_mod_cast Int.lt_add_one_iff.mp (by exact_mod_cast h2)

theorem int_le_pyRound {q : ℚ} {a : ℤ} (h : (a : ℚ) ≤ q) : a ≤ pyRound q := by
  have h1 : q - 1/2 ≤ (pyRound q : ℚ) := le_pyRound q
  have h2 : (a : ℚ) - 1 < (pyRound q : ℚ) := by linarith
  have h3 : a - 1 < pyRound q := by exact_mod_cast h2
  omega

theorem pyRound3_mono {p q : ℚ} (h : p ≤ q) : pyRound3 p ≤ pyRound3 q := by
  unfold pyRound3
  have := pyRound_mono (mul_le_mul_of_nonneg_right h (by norm_num : (0:ℚ) ≤ 1000))
  have hcast : (pyRound (p * 1000) : ℚ) ≤ (pyRound (q * 1000) : ℚ) := by exact_mod_cast this
  linarith

theorem pyRound3_nonneg {q : ℚ} (h : 0 ≤ q) : 0 ≤ pyRound3 q := by
  have h0 : pyRound3 0 = 0 := by
    unfold pyRound3
    norm_num
    have : pyRound ((0:ℤ) : ℚ) = 0 := pyRound_intCast 0
    simpa using this
  calc (0:ℚ) = pyRound3 0 := h0.symm
    _ ≤ pyRound3 q := pyRound3_mono h

theorem pyRound3_le_one {q : ℚ} (h : q ≤ 1) : pyRound3 q ≤ 1 := by
  have h1 : pyRound3 1 = 1 := by
    unfold pyRound3
    have : pyRound ((1000:ℤ) : ℚ) = 1000 := pyRound_intCast 1000
    rw [one_mul]
    norm_num at this ⊢
    rw [this]
    norm_num
  calc pyRound3 q ≤ pyRound3 1 := pyRound3_mono h
    _ = 1 := h1

/-- np.clip for a scalar rational: `min(max(x, lo), hi)`. -/
def clipQ (x lo hi : ℚ) : ℚ := min (max x lo) hi

theorem clipQ_mem (x lo hi : ℚ) (h : lo ≤ hi) : lo ≤ clipQ x lo hi ∧ clipQ x lo hi ≤ hi := by
  unfold clipQ
  constructor
  · exact le_min (le_max_right x lo) h
  · exact min_le_right _ _

/-- A sensor reading with all six metrics present, as built by `make_prediction`
from the `SensorReading` request model (all six fields are required floats). -/
structure Reading where
  temperature : ℚ
  humidity : ℚ
  co2 : ℚ
  voc : ℚ
  pm25 : ℚ
  pm10 : ℚ
deriving DecidableEq

/-- One entry of `NORMAL_RANGES`: `min`, `max`, `critical_min`, `critical_max`. -/
structure RangeSpec where
  rmin : ℚ
  rmax : ℚ
  cmin : ℚ
  cmax : ℚ
deriving DecidableEq

def temperature_range : RangeSpec := ⟨15, 35, 0, 45⟩
def humidity_range : RangeSpec := ⟨30, 70, 10, 90⟩
def co2_range : RangeSpec := ⟨350, 1000, 0, 5000⟩
def voc_range : RangeSpec := ⟨0, 0.5, 0, 3.0⟩
def pm25_range : RangeSpec := ⟨0, 35, 0, 500⟩
def pm10_range : RangeSpec := ⟨0, 50, 0, 600⟩

/-- Per-metric deviation score, the loop body of `calculate_anomaly_score`. -/
def metric_score (value : ℚ) (rg : RangeSpec) : ℚ :=
  if value < rg.rmin then
    if value < rg.cmin then 1
    else min ((rg.rmin - value) / (rg.rmin - rg.cmin)) 1
  else if value > rg.rmax then
    if value > rg.cmax then 1
    else min ((value - rg.rmax) / (rg.cmax - rg.rmax)) 1
  else 0

/-- `calculate_anomaly_score` from `model_server.py` (score and `is_anomaly`;
the per-metric detail map is not needed by the claims).  All six metrics are
present, so `num_metrics = 6`.  The returned score is `round(final_score, 3)`
while the `is_anomaly` threshold is applied to the unrounded score, exactly as
in the source. -/
def calculate_anomaly_score (r : Reading) : ℚ × Bool :=
  let st := metric_score r.temperature temperature_range
  let sh := metric_score r.humidity humidity_range
  let sc := metric_score r.co2 co2_range
  let sv := metric_score r.voc voc_range
  let sp25 := metric_score r.pm25 pm25_range
  let sp10 := metric_score r.pm10 pm10_range
  let avg_score := (st + sh + sc + sv + sp25 + sp10) / 6
  let combined_boost :=
    (if r.co2 > 1000 ∧ r.voc > 0.5 then (0.15 : ℚ) else 0)
    + (if r.pm25 > 50 ∧ r.pm10 > 75 then (0.1 : ℚ) else 0)
    + (if r.temperature > 35 ∧ r.humidity > 70 then (0.1 : ℚ) else 0)
  let final_score := min (avg_score + combined_boost) 1
  (pyRound3 final_score, decide ((0.3 : ℚ) ≤ final_score))

/-- `calculate_aqi_from_pm25` from `model_server.py`: the EPA breakpoint loop,
written as nested conditionals in the order the loop visits the table (the
bands do not overlap, so first-match equals any-match).  Note the table leaves
gaps such as `(12.0, 12.1)`; a PM2.5 value inside a gap matches no band and
falls through to the final `return 500, 'Hazardous'`. -/
def calculate_aqi_from_pm25 (pm25 : ℚ) : ℤ × String :=
  if pm25 < 0 then (0, "Invalid")
  else if 0 ≤ pm25 ∧ pm25 ≤ 12 then
    (pyRound ((50 - 0) / (12 - 0) * (pm25 - 0) + 0), "Good")
  else if 12.1 ≤ pm25 ∧ pm25 ≤ 35.4 then
    (pyRound ((100 - 51) / (35.4 - 12.1) * (pm25 - 12.1) + 51), "Moderate")
  else if 35.5 ≤ pm25 ∧ pm25 ≤ 55.4 then
    (pyRound ((150 - 101) / (55.4 - 35.5) * (pm25 - 35.5) + 101), "Unhealthy for Sensitive")
  else if 55.5 ≤ pm25 ∧ pm25 ≤ 150.4 then
    (pyRound ((200 - 151) / (150.4 - 55.5) * (pm25 - 55.5) + 151), "Unhealthy")
  else if 150.5 ≤ pm25 ∧ pm25 ≤ 250.4 then
    (pyRound ((300 - 201) / (250.4 - 150.5) * (pm25 - 150.5) + 201), "Very Unhealthy")
  else if 250.5 ≤ pm25 ∧ pm25 ≤ 500.4 then
    (pyRound ((500 - 301) / (500.4 - 250.5) * (pm25 - 250.5) + 301), "Hazardous")
  else (500, "Hazardous")

/-- `calculate_risk_level` from `model_server.py`: AQI-primary tiering with
anomaly escalation.  Note the second tier is the string `"MEDIUM"`. -/
def calculate_risk_level (predicted_aqi : ℚ) (anomaly_score : ℚ) : String :=
  let base : ℤ :=
    if predicted_aqi ≤ 50 then 0
    else if predicted_aqi ≤ 100 then 1
    else if predicted_aqi ≤ 150 then 2
    else if predicted_aqi ≤ 200 then 3
    else if predicted_aqi ≤ 300 then 4
    else 5
  let aqi_risk : ℤ :=
    base + (if (0.7 : ℚ) ≤ anomaly_score then 2
            else if (0.4 : ℚ) ≤ anomaly_score then 1 else 0)
  if aqi_risk ≤ 1 then "LOW"
  else if aqi_risk ≤ 2 then "MEDIUM"
  else if aqi_risk ≤ 3 then "HIGH"
  else "CRITICAL"

/-- Result record of `make_prediction`. -/
structure PredictionResult where
  predicted_aqi : ℤ
  aqi_category : String
  anomaly_score : ℚ
  is_anomaly : Bool
  risk_level : String
deriving DecidableEq

/-- `make_prediction` from `model_server.py`: the rule-based prediction path. -/
def make_prediction (r : Reading) : PredictionResult :=
  let aqi := calculate_aqi_from_pm25 r.pm25
  let anom := calculate_anomaly_score r
  { predicted_aqi := aqi.1
    aqi_category := aqi.2
    anomaly_score := anom.1
    is_anomaly := anom.2
    risk_level := calculate_risk_level (aqi.1 : ℚ) anom.1 }

example : calculate_aqi_from_pm25 12 = (50, "Good") := by
  norm_num [calculate_aqi_from_pm25, pyRound]
example : calculate_aqi_from_pm25 35.4 = (100, "Moderate") := by
  norm_num [calculate_aqi_from_pm25, pyRound]
example : calculate_aqi_from_pm25 12.05 = (500, "Hazardous") := by
  norm_num [calculate_aqi_from_pm25, pyRound]
example : calculate_risk_level 20 0.8 = "MEDIUM" := by
  norm_num [calculate_risk_level]
example : calculate_anomaly_score ⟨25, 50, 675, 0.25, 17.5, 25⟩ = (0, false) := by
  norm_num [calculate_anomaly_score, metric_score, temperature_range, humidity_range,
    co2_range, voc_range, pm25_range, pm10_range, pyRound3, pyRound]
example : calculate_anomaly_score ⟨45, 90, 5000, 3, 500, 600⟩ = (1, true) := by
  norm_num [calculate_anomaly_score, metric_score, temperature_range, humidity_range,
    co2_range, voc_range, pm25_range, pm10_range, pyRound3, pyRound]

/-- Extended float: an exact rational together with the IEEE special values
that the code guards against (`np.nan`, `np.inf`, `-np.inf`). -/
inductive EFloat where
  | fin (q : ℚ)
  | pinf
  | ninf
  | nan
deriving DecidableEq

def EFloat.isNan : EFloat → Bool
  | .nan => true
  | _ => false

def EFloat.isFinite : EFloat → Bool
  | .fin _ => true
  | _ => false

/-- IEEE subtraction on extended floats. -/
def EFloat.sub : EFloat → EFloat → EFloat
  | .nan, _ => .nan
  | _, .nan => .nan
  | .fin x, .fin y => .fin (x - y)
  | .fin _, .pinf => .ninf
  | .fin _, .ninf => .pinf
  | .pinf, .fin _ => .pinf
  | .ninf, .fin _ => .ninf
  | .pinf, .ninf => .pinf
  | .ninf, .pinf => .ninf
  | .pinf, .pinf => .nan
  | .ninf, .ninf => .nan

/-- IEEE division on extended floats (sign of zero is not tracked; division by
zero follows numpy: `0/0 = nan`, `x/0 = ±inf`). -/
def EFloat.div : EFloat → EFloat → EFloat
  | .nan, _ => .nan
  | _, .nan => .nan
  | .fin x, .fin y =>
      if y = 0 then (if x = 0 then .nan else if 0 < x then .pinf else .ninf)
      else .fin (x / y)
  | .fin _, .pinf => .fin 0
  | .fin _, .ninf => .fin 0
  | .pinf, .fin y => if 0 ≤ y then .pinf else .ninf
  | .ninf, .fin y => if 0 ≤ y then .ninf else .pinf
  | .pinf, .pinf => .nan
  | .pinf, .ninf => .nan
  | .ninf, .pinf => .nan
  | .ninf, .ninf => .nan

/-- Pairwise minimum as computed by `np.min` reduction (NaN propagates). -/
def EFloat.fmin : EFloat → EFloat → EFloat
  | .nan, _ => .nan
  | _, .nan => .nan
  | .ninf, _ => .ninf
  | _, .ninf => .ninf
  | .pinf, x => x
  | x, .pinf => x
  | .fin x, .fin y => .fin (min x y)

/-- Pairwise maximum as computed by `np.max` reduction (NaN propagates). -/
def EFloat.fmax : EFloat → EFloat → EFloat
  | .nan, _ => .nan
  | _, .nan => .nan
  | .pinf, _ => .pinf
  | _, .pinf => .pinf
  | .ninf, x => x
  | x, .ninf => x
  | .fin x, .fin y => .fin (max x y)

/-- `np.min` over a nonempty array (the empty case, which numpy rejects with an
error, is mapped to NaN and is excluded by the theorems' hypotheses). -/
def listMin : List EFloat → EFloat
  | [] => .nan
  | x :: xs => xs.foldl EFloat.fmin x

/-- `np.max` over a nonempty array. -/
def listMax : List EFloat → EFloat
  | [] => .nan
  | x :: xs => xs.foldl EFloat.fmax x

/-- `AnomalyDetector.predict_scores` from `anomaly_detector.py`: min-max
normalization of the raw `score_samples` output, with the degenerate-range
guard (`denom == 0 or np.isnan(denom)`) falling back to `np.zeros_like`. -/
def predict_scores (scores : List EFloat) : List EFloat :=
  let min_score := listMin scores
  let max_score := listMax scores
  let denom := EFloat.sub max_score min_score
  if denom = EFloat.fin 0 ∨ denom.isNan = true then
    scores.map (fun _ => EFloat.fin 0)
  else
    scores.map (fun s => EFloat.sub (EFloat.fin 1) (EFloat.div (EFloat.sub s min_score) denom))

/-- `np.nan_to_num(x, nan=0.0, posinf=500.0, neginf=0.0)` as applied to the
AQI regressor output in `EnsembleModel.predict`. -/
def nan_to_num (e : EFloat) : ℚ :=
  match e with
  | .fin q => q
  | .nan => 0
  | .pinf => 500
  | .ninf => 0

/-- `EnsembleModel._classify_risk` from `ensemble_model.py`. -/
def classify_risk (score : ℚ) : String :=
  if score < 0.3 then "LOW"
  else if score < 0.6 then "MODERATE"
  else if score < 0.8 then "HIGH"
  else "CRITICAL"

/-- Output record of `EnsembleModel.predict`. -/
structure EnsembleOutput where
  anomaly_score : ℚ
  is_anomaly : Bool
  predicted_aqi : ℚ
  risk_score : ℚ
  risk_level : String
deriving DecidableEq

/-- `EnsembleModel.predict` from `ensemble_model.py`, in the configuration the
model server uses (`set_models(anomaly_detector, aqi_predictor, None)`: both
component models present).  Inputs are the component models' outputs for the
one-row frame — the raw anomaly score (finite, as produced by
`predict_scores`), the raw `is_anomaly` flag, and the raw AQI regressor output
(possibly NaN/Inf) — plus the configured ensemble weights.  Note that
`_classify_risk` is applied to the unclipped `risk_score`, exactly as in the
source. -/
def ensemble_predict (wa wq : ℚ) (raw_anomaly_score : ℚ) (raw_is_anomaly : Bool)
    (raw_aqi : EFloat) : EnsembleOutput :=
  let s := clipQ raw_anomaly_score 0 1
  let ia := if raw_is_anomaly = true ∧ s < 0.3 then false else raw_is_anomaly
  let aqi_val := nan_to_num raw_aqi
  let predicted_aqi := clipQ aqi_val 0 500
  let aqi_norm := min (predicted_aqi / 500) 1
  let risk_score := s * wa + aqi_norm * wq
  { anomaly_score := s
    is_anomaly := ia
    predicted_aqi := predicted_aqi
    risk_score := clipQ risk_score 0 1
    risk_level := if ia = true then "HIGH" else classify_risk risk_score }

/-- Outcome of the `requests.post` call inside `AlertManager.send_alert`:
either a response with a status code, or a raised transport exception. -/
inductive PostOutcome where
  | response (status : ℕ)
  | transportError
deriving DecidableEq

/-- Observable behaviour of `AlertManager.send_alert` from `alerting.py`.  The
source wraps the POST in `try/except Exception`, so the function always
returns normally (it is total here); a 201 response logs success, anything
else — any other status or a transport error — logs an error and is treated
as "alert not delivered".  The prediction result passed in `data` is only
read, never written. -/
structure SendAlertResult where
  delivered : Bool
  loggedError : Bool
deriving DecidableEq

def send_alert (outcome : PostOutcome) : SendAlertResult :=
  match outcome with
  | .response status => if status = 201 then ⟨true, false⟩ else ⟨false, true⟩
  | .transportError => ⟨false, true⟩

/-- Input record of `RealtimePredictor.predict_single`: a reading dict with
`sensorId`, `timestamp` and the six metrics. -/
structure RTReading where
  sensorId : String
  timestamp : String
  temperature : ℚ
  humidity : ℚ
  co2 : ℚ
  voc : ℚ
  pm25 : ℚ
  pm10 : ℚ

/-- `RealtimePredictor._generate_cache_key`: built from `sensorId` and
`timestamp` only. -/
def generate_cache_key (r : RTReading) : String :=
  r.sensorId ++ "_" ++ r.timestamp

/-- `RealtimePredictor.predict_single`: check the cache by key, otherwise run
the feature/preprocess/ensemble pipeline (abstracted as the pure function
`pipeline`) and store the result under the key.  The cache is the `self.cache`
dict, modelled as an association list. -/
def predict_single {α : Type} (pipeline : RTReading → α)
    (cache : List (String × α)) (r : RTReading) : α × List (String × α) :=
  match cache.lookup (generate_cache_key r) with
  | some cached => (cached, cache)
  | none =>
      let result := pipeline r
      (result, (generate_cache_key r, result) :: cache)

example : (ensemble_predict 0.5 0.5 0.9 true (EFloat.fin 500)).risk_level = "HIGH" := by
  norm_num [ensemble_predict, clipQ, nan_to_num]
example : (ensemble_predict 0.5 0.5 0.25 true (EFloat.fin 20)).risk_level = "LOW" := by
  norm_num [ensemble_predict, clipQ, nan_to_num, classify_risk]
example : predict_scores [EFloat.fin 2, EFloat.fin 2] = [EFloat.fin 0, EFloat.fin 0] := by
  norm_num [predict_scores, listMin, listMax, EFloat.fmin, EFloat.fmax, EFloat.sub]

theorem metric_score_mem (v : ℚ) (rg : RangeSpec) :
    0 ≤ metric_score v rg ∧ metric_score v rg ≤ 1 := by
  unfold metric_score
  split_ifs with h1 h2 h3 h4
  · norm_num
  · constructor
    · exact le_min (div_nonneg (by linarith) (by linarith [not_lt.mp h2])) (by norm_num)
    · exact min_le_right _ _
  · norm_num
  · constructor
    · exact le_min (div_nonneg (by linarith) (by linarith [not_lt.mp h4])) (by norm_num)
    · exact min_le_right _ _
  · norm_num

theorem metric_score_in_range {v : ℚ} {rg : RangeSpec}
    (h1 : rg.rmin ≤ v) (h2 : v ≤ rg.rmax) : metric_score v rg = 0 := by
  unfold metric_score
  rw [if_neg (not_lt.mpr h1), if_neg (not_lt.mpr h2)]

theorem metric_score_critical {v : ℚ} {rg : RangeSpec} (hr : rg.rmin ≤ rg.rmax)
    (hc : rg.rmax < rg.cmax) (h : rg.cmax ≤ v) : metric_score v rg = 1 := by
  unfold metric_score
  rw [if_neg (not_lt.mpr (by linarith))]
  rw [if_pos (by linarith)]
  by_cases hd : v > rg.cmax
  · rw [if_pos hd]
  · rw [if_neg hd]
    have hv : v = rg.cmax := le_antisymm (not_lt.mp hd) h
    rw [hv, div_self (by linarith : rg.cmax - rg.rmax ≠ 0)]
    exact min_self 1

/-- C4: the rule-based EPA AQI mapping sends PM2.5 = 12.0 to AQI 50 "Good",
PM2.5 = 35.4 to AQI 100 "Moderate", every PM2.5 at or above 500.4 to AQI 500
"Hazardous", and every negative PM2.5 to AQI 0 "Invalid". -/
theorem C4_aqi_roundtrip :
    calculate_aqi_from_pm25 12 = (50, "Good") ∧
    calculate_aqi_from_pm25 35.4 = (100, "Moderate") ∧
    (∀ p : ℚ, 500.4 ≤ p → calculate_aqi_from_pm25 p = (500, "Hazardous")) ∧
    (∀ p : ℚ, p < 0 → calculate_aqi_from_pm25 p = (0, "Invalid")) := by
  refine ⟨by norm_num [calculate_aqi_from_pm25, pyRound],
          by norm_num [calculate_aqi_from_pm25, pyRound], ?_, ?_⟩
  · intro p hp
    unfold calculate_aqi_from_pm25
    split_ifs with h1 h2 h3 h4 h5 h6 h7
    · linarith
    · exact absurd h2.2 (by linarith)
    · exact absurd h3.2 (by linarith)
    · exact absurd h4.2 (by linarith)
    · exact absurd h5.2 (by linarith)
    · exact absurd h6.2 (by linarith)
    · have hp5 : p = 500.4 := le_antisymm h7.2 hp
      subst hp5
      norm_num [pyRound]
    · rfl
  · intro p hp
    unfold calculate_aqi_from_pm25
    rw [if_pos hp]

/-- Witness for C4 at the quantified conjuncts: PM2.5 = 600 saturates to
(500, Hazardous) and PM2.5 = -5 is invalid. -/
theorem C4_aqi_roundtrip_witness :
    calculate_aqi_from_pm25 600 = (500, "Hazardous") ∧
    calculate_aqi_from_pm25 (-5) = (0, "Invalid") :=
  ⟨C4_aqi_roundtrip.2.2.1 600 (by norm_num), C4_aqi_roundtrip.2.2.2 (-5) (by norm_num)⟩

/-- C5: a reading with all six metrics at the midpoints of their normal ranges
scores 0 and is not an anomaly; any reading with all six metrics at or beyond
their critical bounds scores exactly 1 and is an anomaly. -/
theorem C5_rule_based_anomaly_extremes :
    calculate_anomaly_score ⟨25, 50, 675, 0.25, 17.5, 25⟩ = (0, false) ∧
    (∀ r : Reading, 45 ≤ r.temperature → 90 ≤ r.humidity → 5000 ≤ r.co2 →
      3 ≤ r.voc → 500 ≤ r.pm25 → 600 ≤ r.pm10 →
      calculate_anomaly_score r = (1, true)) := by
  constructor
  · norm_num [calculate_anomaly_score, metric_score, temperature_range, humidity_range,
      co2_range, voc_range, pm25_range, pm10_range, pyRound3, pyRound]
  · intro r h1 h2 h3 h4 h5 h6
    have ht : metric_score r.temperature temperature_range = 1 :=
      metric_score_critical (by norm_num [temperature_range]) (by norm_num [temperature_range])
        (by simpa [temperature_range] using h1)
    have hh : metric_score r.humidity humidity_range = 1 :=
      metric_score_critical (by norm_num [humidity_range]) (by norm_num [humidity_range])
        (by simpa [humidity_range] using h2)
    have hc : metric_score r.co2 co2_range = 1 :=
      metric_score_critical (by norm_num [co2_range]) (by norm_num [co2_range])
        (by simpa [co2_range] using h3)
    have hv : metric_score r.voc voc_range = 1 :=
      metric_score_critical (by norm_num [voc_range]) (by norm_num [voc_range])
        (by norm_num [voc_range]; linarith)
    have hp25 : metric_score r.pm25 pm25_range = 1 :=
      metric_score_critical (by norm_num [pm25_range]) (by norm_num [pm25_range])
        (by simpa [pm25_range] using h5)
    have hp10 : metric_score r.pm10 pm10_range = 1 :=
      metric_score_critical (by norm_num [pm10_range]) (by norm_num [pm10_range])
        (by simpa [pm10_range] using h6)
    simp only [calculate_anomaly_score, ht, hh, hc, hv, hp25, hp10]
    rw [if_pos ⟨by linarith, by linarith⟩, if_pos ⟨by linarith, by linarith⟩,
      if_pos ⟨by linarith, by linarith⟩]
    norm_num [pyRound3, pyRound]

/-- Witness for C5's quantified conjunct, at the critical-bound reading. -/
theorem C5_rule_based_anomaly_extremes_witness :
    calculate_anomaly_score ⟨45, 90, 5000, 3, 500, 600⟩ = (1, true) :=
  C5_rule_based_anomaly_extremes.2 ⟨45, 90, 5000, 3, 500, 600⟩ (by norm_num) (by norm_num)
    (by norm_num) (by norm_num) (by norm_num) (by norm_num)


theorem ensemble_is_anomaly_eq (wa wq s0 : ℚ) (ia : Bool) (q : EFloat) :
    (ensemble_predict wa wq s0 ia q).is_anomaly =
      if ia = true ∧ clipQ s0 0 1 < 0.3 then false else ia := rfl

theorem ensemble_risk_level_of_lt (wa wq s0 : ℚ) (ia : Bool) (q : EFloat)
    (h : clipQ s0 0 1 < 0.3) :
    (ensemble_predict wa wq s0 ia q).risk_level =
      classify_risk (clipQ s0 0 1 * wa + min (clipQ (nan_to_num q) 0 500 / 500) 1 * wq) := by
  cases ia <;> simp [ensemble_predict, h]

theorem ensemble_risk_level_of_ge (wa wq s0 : ℚ) (q : EFloat)
    (h : ¬ clipQ s0 0 1 < 0.3) :
    (ensemble_predict wa wq s0 true q).risk_level = "HIGH" := by
  simp [ensemble_predict, h]

/-- C7: with CO2 = 1200, VOC = 0.6 and every other metric inside its normal
range, the rule-based anomaly score is strictly greater than for the same
reading with VOC forced to any normal value (CO2 = 1200 alone): only the first
reading receives the CO2-above-1000-with-VOC-above-0.5 combined boost. -/
theorem C7_combined_boost (temp hum p25 p10 voc2 : ℚ)
    (ht1 : 15 ≤ temp) (ht2 : temp ≤ 35) (hh1 : 30 ≤ hum) (hh2 : hum ≤ 70)
    (hp1 : 0 ≤ p25) (hp2 : p25 ≤ 35) (hq1 : 0 ≤ p10) (hq2 : p10 ≤ 50)
    (hv1 : 0 ≤ voc2) (hv2 : voc2 ≤ 0.5) :
    (calculate_anomaly_score ⟨temp, hum, 1200, voc2, p25, p10⟩).1 <
      (calculate_anomaly_score ⟨temp, hum, 1200, 0.6, p25, p10⟩).1 := by
  have hst : metric_score temp temperature_range = 0 :=
    metric_score_in_range (by norm_num [temperature_range]; linarith)
      (by norm_num [temperature_range]; linarith)
  have hsh : metric_score hum humidity_range = 0 :=
    metric_score_in_range (by norm_num [humidity_range]; linarith)
      (by norm_num [humidity_range]; linarith)
  have hsp25 : metric_score p25 pm25_range = 0 :=
    metric_score_in_range (by norm_num [pm25_range]; linarith)
      (by norm_num [pm25_range]; linarith)
  have hsp10 : metric_score p10 pm10_range = 0 :=
    metric_score_in_range (by norm_num [pm10_range]; linarith)
      (by norm_num [pm10_range]; linarith)
  have hsv2 : metric_score voc2 voc_range = 0 :=
    metric_score_in_range (by norm_num [voc_range]; linarith)
      (by norm_num [voc_range]; linarith)
  have hsco : metric_score (1200 : ℚ) co2_range = 1/20 := by
    norm_num [metric_score, co2_range]
  have hsv6 : metric_score (0.6 : ℚ) voc_range = 1/25 := by
    norm_num [metric_score, voc_range]
  have hb1 : ¬((1200 : ℚ) > 1000 ∧ voc2 > 0.5) := by rintro ⟨hx, hy⟩; linarith
  have hb2 : ¬(p25 > (50 : ℚ) ∧ p10 > (75 : ℚ)) := by rintro ⟨hx, hy⟩; linarith
  have hb3 : ¬(temp > (35 : ℚ) ∧ hum > (70 : ℚ)) := by rintro ⟨hx, hy⟩; linarith
  have hb4 : (1200 : ℚ) > 1000 ∧ (0.6 : ℚ) > 0.5 := ⟨by norm_num, by norm_num⟩
  simp only [calculate_anomaly_score, hst, hsh, hsp25, hsp10, hsv2, hsco, hsv6]
  rw [if_neg hb1, if_neg hb2, if_neg hb3, if_pos hb4]
  norm_num [pyRound3, pyRound]

/-- Witness for C7 at concrete mid-normal values of the other metrics. -/
theorem C7_combined_boost_witness :
    (calculate_anomaly_score ⟨25, 50, 1200, 0.25, 17.5, 25⟩).1 <
      (calculate_anomaly_score ⟨25, 50, 1200, 0.6, 17.5, 25⟩).1 :=
  C7_combined_boost 25 50 17.5 25 0.25 (by norm_num) (by norm_num) (by norm_num) (by norm_num)
    (by norm_num) (by norm_num) (by norm_num) (by norm_num) (by norm_num) (by norm_num)

/-- C3 counterexample: in the AQI-primary tiering (`calculate_risk_level`), a
strong anomaly (score 0.8) with AQI 20 escalates only two tiers from LOW to
MEDIUM — the result is neither HIGH nor CRITICAL, refuting "at least HIGH in
both tierings". -/
theorem C3_counterexample :
    calculate_risk_level 20 0.8 = "MEDIUM" ∧
    "MEDIUM" ≠ "HIGH" ∧ "MEDIUM" ≠ "CRITICAL" :=
  ⟨by norm_num [calculate_risk_level], by decide, by decide⟩

/-- C3 (amended): with AQI 20, a weak anomaly flag (score 0.25) leaves the
risk level LOW in both tierings (the ensemble guard rejects the override for
any weights in [0,1]); a strong anomaly (score 0.8) forces exactly HIGH in the
score-based ensemble tiering, while the AQI-primary tiering escalates two
tiers to MEDIUM, not to HIGH. -/
theorem C3_override_asymmetry :
    (∀ wa wq : ℚ, 0 ≤ wa → wa ≤ 1 → 0 ≤ wq → wq ≤ 1 →
        (ensemble_predict wa wq 0.25 true (EFloat.fin 20)).risk_level = "LOW" ∨
        (ensemble_predict wa wq 0.25 true (EFloat.fin 20)).risk_level = "MODERATE") ∧
    calculate_risk_level 20 0.25 = "LOW" ∧
    (∀ wa wq : ℚ, (ensemble_predict wa wq 0.8 true (EFloat.fin 20)).risk_level = "HIGH") ∧
    calculate_risk_level 20 0.8 = "MEDIUM" := by
  refine ⟨?_, by norm_num [calculate_risk_level], ?_, by norm_num [calculate_risk_level]⟩
  · intro wa wq hwa0 hwa1 hwq0 hwq1
    left
    have e1 : clipQ (0.25 : ℚ) 0 1 = 1/4 := by norm_num [clipQ]
    have e2 : min (clipQ (nan_to_num (EFloat.fin 20)) 0 500 / 500) 1 = 1/25 := by
      norm_num [clipQ, nan_to_num]
    rw [ensemble_risk_level_of_lt wa wq 0.25 true (EFloat.fin 20) (by norm_num [clipQ]), e1, e2]
    unfold classify_risk
    rw [if_pos (by linarith)]
  · intro wa wq
    exact ensemble_risk_level_of_ge wa wq 0.8 (EFloat.fin 20) (by norm_num [clipQ])

/-- Witness for C3's quantified conjuncts at the default weights 0.5/0.5. -/
theorem C3_override_asymmetry_witness :
    ((ensemble_predict 0.5 0.5 0.25 true (EFloat.fin 20)).risk_level = "LOW" ∨
      (ensemble_predict 0.5 0.5 0.25 true (EFloat.fin 20)).risk_level = "MODERATE") ∧
    (ensemble_predict 0.5 0.5 0.8 true (EFloat.fin 20)).risk_level = "HIGH" :=
  ⟨C3_override_asymmetry.1 0.5 0.5 (by norm_num) (by norm_num) (by norm_num) (by norm_num),
    C3_override_asymmetry.2.2.1 0.5 0.5⟩

/-- C10: in `EnsembleModel.predict`, the post-guard anomaly flag holds exactly
when the raw flag holds and the clipped anomaly score is at least 0.3, and
whenever it holds the risk level is exactly the string "HIGH" for every
weight configuration and every risk score — even though `_classify_risk`
returns "CRITICAL" for any score of at least 0.8. -/
theorem C10_anomaly_forces_high :
    (∀ (wa wq s0 : ℚ) (ia : Bool) (q : EFloat),
        ((ensemble_predict wa wq s0 ia q).is_anomaly = true ↔
          ia = true ∧ ¬ clipQ s0 0 1 < 0.3) ∧
        ((ensemble_predict wa wq s0 ia q).is_anomaly = true →
          (ensemble_predict wa wq s0 ia q).risk_level = "HIGH")) ∧
    (∀ rs : ℚ, 0.8 ≤ rs → classify_risk rs = "CRITICAL") := by
  constructor
  · intro wa wq s0 ia q
    have hiff : (ensemble_predict wa wq s0 ia q).is_anomaly = true ↔
        ia = true ∧ ¬ clipQ s0 0 1 < 0.3 := by
      rw [ensemble_is_anomaly_eq]
      by_cases hlt : clipQ s0 0 1 < 0.3 <;> cases ia <;> simp [hlt]
    refine ⟨hiff, ?_⟩
    intro h
    obtain ⟨hia, hlt⟩ := hiff.mp h
    subst hia
    exact ensemble_risk_level_of_ge wa wq s0 q hlt
  · intro rs h
    unfold classify_risk
    rw [if_neg (by linarith), if_neg (by linarith), if_neg (by linarith)]

/-- Witness for C10: raw score 0.9 with the flag set keeps the flag after the
guard, yields risk level HIGH, and 0.95 (the ensemble risk score there) would
classify as CRITICAL under the score-based tiering. -/
theorem C10_anomaly_forces_high_witness :
    (ensemble_predict 0.5 0.5 0.9 true (EFloat.fin 500)).is_anomaly = true ∧
    (ensemble_predict 0.5 0.5 0.9 true (EFloat.fin 500)).risk_level = "HIGH" ∧
    classify_risk 0.95 = "CRITICAL" := by
  have hia : (ensemble_predict 0.5 0.5 0.9 true (EFloat.fin 500)).is_anomaly = true :=
    ((C10_anomaly_forces_high.1 0.5 0.5 0.9 true (EFloat.fin 500)).1).mpr
      ⟨rfl, by norm_num [clipQ]⟩
  exact ⟨hia, (C10_anomaly_forces_high.1 0.5 0.5 0.9 true (EFloat.fin 500)).2 hia,
    C10_anomaly_forces_high.2 0.95 (by norm_num)⟩

/-- C8: `AlertManager.send_alert` is total (the POST is wrapped in a broad
`try/except`, so neither a non-201 status nor a transport exception raises);
delivery succeeds exactly on HTTP 201, and every other outcome is logged as an
error instead of being raised. -/
theorem C8_alert_delivery :
    (∀ status : ℕ, (send_alert (PostOutcome.response status)).delivered = decide (status = 201)) ∧
    (send_alert PostOutcome.transportError).delivered = false ∧
    (∀ o : PostOutcome, (send_alert o).loggedError = !(send_alert o).delivered) := by
  refine ⟨?_, rfl, ?_⟩
  · intro status
    simp only [send_alert]
    split_ifs with h <;> simp [h]
  · intro o
    cases o with
    | response status =>
        simp only [send_alert]
        split_ifs <;> rfl
    | transportError => rfl

/-- C9: the memoization cache key is built from `sensorId` and `timestamp`
only, so once `predict_single` has been called on a reading, calling it on any
second reading with the same `sensorId` and `timestamp` — whatever its metric
values — returns the first reading's cached result. -/
theorem C9_cache_ignores_metrics {α : Type} (pipeline : RTReading → α)
    (cache : List (String × α)) (r1 r2 : RTReading)
    (hsid : r1.sensorId = r2.sensorId) (hts : r1.timestamp = r2.timestamp) :
    (predict_single pipeline (predict_single pipeline cache r1).2 r2).1 =
      (predict_single pipeline cache r1).1 := by
  have hkey : generate_cache_key r2 = generate_cache_key r1 := by
    simp [generate_cache_key, hsid, hts]
  unfold predict_single
  rw [hkey]
  cases hc : cache.lookup (generate_cache_key r1) with
  | some cached => simp [hc]
  | none => simp [hc, List.lookup]

/-- Witness for C9: two readings sharing sensor id and timestamp but with
every metric different; the second call returns the first reading's result
(the pipeline applied to the first reading, here its PM2.5 of 15, not 999). -/
theorem C9_cache_ignores_metrics_witness :
    (predict_single (fun r => r.pm25)
        (predict_single (fun r => r.pm25) ([] : List (String × ℚ))
          ⟨"sensor-1", "2024-01-01T00:00:00", 25, 50, 500, 0.3, 15, 25⟩).2
        ⟨"sensor-1", "2024-01-01T00:00:00", 99, 99, 9999, 9, 999, 999⟩).1 =
      (predict_single (fun r => r.pm25) ([] : List (String × ℚ))
        ⟨"sensor-1", "2024-01-01T00:00:00", 25, 50, 500, 0.3, 15, 25⟩).1 ∧
    (predict_single (fun r => r.pm25) ([] : List (String × ℚ))
        ⟨"sensor-1", "2024-01-01T00:00:00", 25, 50, 500, 0.3, 15, 25⟩).1 = 15 :=
  ⟨C9_cache_ignores_metrics (fun r => r.pm25) [] _ _ rfl rfl, rfl⟩

theorem efloat_sub_self_degenerate (e : EFloat) :
    EFloat.sub e e = EFloat.fin 0 ∨ (EFloat.sub e e).isNan = true := by
  cases e <;> simp [EFloat.sub, EFloat.isNan]

theorem efloat_fmin_finite {a b : EFloat} (ha : a.isFinite = true) (hb : b.isFinite = true) :
    (EFloat.fmin a b).isFinite = true := by
  cases a <;> cases b <;> simp_all [EFloat.fmin, EFloat.isFinite]

theorem efloat_fmax_finite {a b : EFloat} (ha : a.isFinite = true) (hb : b.isFinite = true) :
    (EFloat.fmax a b).isFinite = true := by
  cases a <;> cases b <;> simp_all [EFloat.fmax, EFloat.isFinite]

theorem foldl_fmin_finite (xs : List EFloat) :
    ∀ x : EFloat, x.isFinite = true → (∀ y ∈ xs, EFloat.isFinite y = true) →
      (xs.foldl EFloat.fmin x).isFinite = true := by
  induction xs with
  | nil => intro x hx _; simpa using hx
  | cons y ys ih =>
      intro x hx hys
      simp only [List.foldl_cons]
      exact ih _ (efloat_fmin_finite hx (hys y (by simp))) (fun z hz => hys z (by simp [hz]))

theorem foldl_fmax_finite (xs : List EFloat) :
    ∀ x : EFloat, x.isFinite = true → (∀ y ∈ xs, EFloat.isFinite y = true) →
      (xs.foldl EFloat.fmax x).isFinite = true := by
  induction xs with
  | nil => intro x hx _; simpa using hx
  | cons y ys ih =>
      intro x hx hys
      simp only [List.foldl_cons]
      exact ih _ (efloat_fmax_finite hx (hys y (by simp))) (fun z hz => hys z (by simp [hz]))

theorem efloat_finite_exists {e : EFloat} (h : e.isFinite = true) : ∃ q : ℚ, e = EFloat.fin q := by
  cases e <;> simp_all [EFloat.isFinite]

/-- C6: numeric degeneracy never surfaces.  (i) If the raw score range is
degenerate — maximum equals minimum, or their difference is NaN (as happens
when any raw score is NaN) — `predict_scores` returns all-zero scores.
(ii) On finite raw scores, every normalized score is finite: no NaN/Inf is
produced.  (iii) In `EnsembleModel.predict`, a NaN AQI regressor output maps
to 0, +Inf to 500 and -Inf to 0. -/
theorem C6_numeric_degeneracy :
    (∀ scores : List EFloat,
        (listMax scores = listMin scores ∨
          (EFloat.sub (listMax scores) (listMin scores)).isNan = true) →
        predict_scores scores = scores.map (fun _ => EFloat.fin 0)) ∧
    (∀ scores : List EFloat, scores.all EFloat.isFinite = true →
        (predict_scores scores).all EFloat.isFinite = true) ∧
    (∀ (wa wq s0 : ℚ) (ia : Bool),
        (ensemble_predict wa wq s0 ia EFloat.nan).predicted_aqi = 0 ∧
        (ensemble_predict wa wq s0 ia EFloat.pinf).predicted_aqi = 500 ∧
        (ensemble_predict wa wq s0 ia EFloat.ninf).predicted_aqi = 0) := by
  refine ⟨?_, ?_, ?_⟩
  · intro scores h
    unfold predict_scores
    rcases h with h | h
    · rw [h]
      rw [if_pos (efloat_sub_self_degenerate (listMin scores))]
    · rw [if_pos (Or.inr h)]
  · intro scores hfin
    rw [List.all_eq_true] at hfin
    simp only [predict_scores]
    split_ifs with hguard
    · rw [List.all_eq_true]
      intro x hx
      rw [List.mem_map] at hx
      obtain ⟨y, _, hy⟩ := hx
      rw [← hy]
      rfl
    · rcases scores with _ | ⟨x, xs⟩
      · rfl
      · have hx : x.isFinite = true := hfin x (by simp)
        have hxs : ∀ y ∈ xs, EFloat.isFinite y = true := fun y hy => hfin y (by simp [hy])
        have hmn : (listMin (x :: xs)).isFinite = true := foldl_fmin_finite xs x hx hxs
        have hmx : (listMax (x :: xs)).isFinite = true := foldl_fmax_finite xs x hx hxs
        obtain ⟨mq, hmq⟩ := efloat_finite_exists hmn
        obtain ⟨xq, hxq⟩ := efloat_finite_exists hmx
        have hdenom : EFloat.sub (listMax (x :: xs)) (listMin (x :: xs)) =
            EFloat.fin (xq - mq) := by rw [hmq, hxq]; rfl
        have hne : xq - mq ≠ 0 := by
          intro h0
          apply hguard
          left
          rw [hdenom, h0]
        rw [List.all_eq_true]
        intro z hz
        rw [List.mem_map] at hz
        obtain ⟨y, hymem, hy⟩ := hz
        obtain ⟨yq, hyq⟩ := efloat_finite_exists (hfin y hymem)
        rw [← hy, hdenom, hmq, hyq]
        have h1 : EFloat.sub (EFloat.fin yq) (EFloat.fin mq) = EFloat.fin (yq - mq) := rfl
        have h2 : EFloat.div (EFloat.fin (yq - mq)) (EFloat.fin (xq - mq)) =
            EFloat.fin ((yq - mq) / (xq - mq)) := by
          simp only [EFloat.div]
          rw [if_neg hne]
        rw [h1, h2]
        rfl
  · intro wa wq s0 ia
    have hproj : ∀ q : EFloat,
        (ensemble_predict wa wq s0 ia q).predicted_aqi = clipQ (nan_to_num q) 0 500 :=
      fun _ => rfl
    refine ⟨?_, ?_, ?_⟩ <;> rw [hproj] <;> norm_num [nan_to_num, clipQ]

/-- Witness for C6: a constant score list normalizes to zeros, a finite
non-degenerate list stays finite, and the NaN AQI output maps to 0. -/
theorem C6_numeric_degeneracy_witness :
    predict_scores [EFloat.fin 2, EFloat.fin 2] =
      [EFloat.fin 2, EFloat.fin 2].map (fun _ => EFloat.fin 0) ∧
    (predict_scores [EFloat.fin 1, EFloat.fin 3]).all EFloat.isFinite = true ∧
    (ensemble_predict 0.5 0.5 0 false EFloat.nan).predicted_aqi = 0 :=
  ⟨C6_numeric_degeneracy.1 [EFloat.fin 2, EFloat.fin 2]
      (Or.inl (by norm_num [listMin, listMax, EFloat.fmin, EFloat.fmax])),
    C6_numeric_degeneracy.2.1 [EFloat.fin 1, EFloat.fin 3] (by norm_num [EFloat.isFinite]),
    (C6_numeric_degeneracy.2.2 0.5 0.5 0 false).1⟩

theorem anomaly_score_bounds (r : Reading) :
    0 ≤ (calculate_anomaly_score r).1 ∧ (calculate_anomaly_score r).1 ≤ 1 := by
  obtain ⟨t0, t1⟩ := metric_score_mem r.temperature temperature_range
  obtain ⟨h0, h1⟩ := metric_score_mem r.humidity humidity_range
  obtain ⟨c0, c1⟩ := metric_score_mem r.co2 co2_range
  obtain ⟨v0, v1⟩ := metric_score_mem r.voc voc_range
  obtain ⟨p0, p1⟩ := metric_score_mem r.pm25 pm25_range
  obtain ⟨q0, q1⟩ := metric_score_mem r.pm10 pm10_range
  have hb1 : (0:ℚ) ≤ if r.co2 > 1000 ∧ r.voc > 0.5 then (0.15 : ℚ) else 0 := by
    split_ifs <;> norm_num
  have hb2 : (0:ℚ) ≤ if r.pm25 > 50 ∧ r.pm10 > 75 then (0.1 : ℚ) else 0 := by
    split_ifs <;> norm_num
  have hb3 : (0:ℚ) ≤ if r.temperature > 35 ∧ r.humidity > 70 then (0.1 : ℚ) else 0 := by
    split_ifs <;> norm_num
  simp only [calculate_anomaly_score]
  constructor
  · exact pyRound3_nonneg (le_min (by linarith) (by norm_num))
  · exact pyRound3_le_one (min_le_right _ _)

theorem aqi_fst_bounds (p : ℚ) :
    0 ≤ (calculate_aqi_from_pm25 p).1 ∧ (calculate_aqi_from_pm25 p).1 ≤ 500 := by
  unfold calculate_aqi_from_pm25
  split_ifs with h1 h2 h3 h4 h5 h6 h7
  · norm_num
  · exact ⟨int_le_pyRound (by push_cast; linarith [h2.1]),
      pyRound_le_int (by push_cast; linarith [h2.2])⟩
  · exact ⟨int_le_pyRound (by push_cast; linarith [h3.1]),
      pyRound_le_int (by push_cast; linarith [h3.2])⟩
  · exact ⟨int_le_pyRound (by push_cast; linarith [h4.1]),
      pyRound_le_int (by push_cast; linarith [h4.2])⟩
  · exact ⟨int_le_pyRound (by push_cast; linarith [h5.1]),
      pyRound_le_int (by push_cast; linarith [h5.2])⟩
  · exact ⟨int_le_pyRound (by push_cast; linarith [h6.1]),
      pyRound_le_int (by push_cast; linarith [h6.2])⟩
  · exact ⟨int_le_pyRound (by push_cast; linarith [h7.1]),
      pyRound_le_int (by push_cast; linarith [h7.2])⟩
  · norm_num

theorem calculate_risk_level_mem (a s : ℚ) :
    calculate_risk_level a s ∈ (["LOW", "MEDIUM", "HIGH", "CRITICAL"] : List String) := by
  unfold calculate_risk_level
  split_ifs <;> simp

theorem classify_risk_mem (s : ℚ) :
    classify_risk s ∈ (["LOW", "MODERATE", "HIGH", "CRITICAL"] : List String) := by
  unfold classify_risk
  split_ifs <;> simp

/-- C1 counterexample: the reading (25, 50, 500, 0.3, pm25 = 55, 25) drives
the rule-based path to AQI 149 with a negligible anomaly score, and
`calculate_risk_level` names the resulting tier "MEDIUM" — a value outside
the claimed set {LOW, MODERATE, HIGH, CRITICAL}. -/
theorem C1_counterexample :
    (make_prediction ⟨25, 50, 500, 0.3, 55, 25⟩).risk_level = "MEDIUM" ∧
    "MEDIUM" ∉ (["LOW", "MODERATE", "HIGH", "CRITICAL"] : List String) := by
  constructor
  · norm_num [make_prediction, calculate_aqi_from_pm25, calculate_anomaly_score,
      metric_score, temperature_range, humidity_range, co2_range, voc_range,
      pm25_range, pm10_range, pyRound3, pyRound, calculate_risk_level]
  · decide

/-- C1 (amended): every output of the prediction path is well-formed — the
anomaly score lies in [0,1], the predicted AQI in [0,500] (and the ensemble
risk score in [0,1]); over the rationals no NaN/Inf can appear, and the
ensemble clamps its NaN/Inf-capable AQI input before use.  The risk level of
the ensemble path lies in {LOW, MODERATE, HIGH, CRITICAL}, but the rule-based
path names its second tier "MEDIUM", so its levels lie in
{LOW, MEDIUM, HIGH, CRITICAL}. -/
theorem C1_output_wellformed :
    (∀ r : Reading,
        0 ≤ (make_prediction r).anomaly_score ∧ (make_prediction r).anomaly_score ≤ 1 ∧
        0 ≤ (make_prediction r).predicted_aqi ∧ (make_prediction r).predicted_aqi ≤ 500 ∧
        (make_prediction r).risk_level ∈ (["LOW", "MEDIUM", "HIGH", "CRITICAL"] : List String)) ∧
    (∀ (wa wq s0 : ℚ) (ia : Bool) (q : EFloat),
        0 ≤ (ensemble_predict wa wq s0 ia q).anomaly_score ∧
        (ensemble_predict wa wq s0 ia q).anomaly_score ≤ 1 ∧
        0 ≤ (ensemble_predict wa wq s0 ia q).predicted_aqi ∧
        (ensemble_predict wa wq s0 ia q).predicted_aqi ≤ 500 ∧
        0 ≤ (ensemble_predict wa wq s0 ia q).risk_score ∧
        (ensemble_predict wa wq s0 ia q).risk_score ≤ 1 ∧
        (ensemble_predict wa wq s0 ia q).risk_level ∈
          (["LOW", "MODERATE", "HIGH", "CRITICAL"] : List String)) := by
  constructor
  · intro r
    obtain ⟨ha0, ha1⟩ := anomaly_score_bounds r
    obtain ⟨hq0, hq1⟩ := aqi_fst_bounds r.pm25
    exact ⟨ha0, ha1, hq0, hq1, calculate_risk_level_mem _ _⟩
  · intro wa wq s0 ia q
    have hs : (ensemble_predict wa wq s0 ia q).anomaly_score = clipQ s0 0 1 := rfl
    have hq : (ensemble_predict wa wq s0 ia q).predicted_aqi =
        clipQ (nan_to_num q) 0 500 := rfl
    have hr : (ensemble_predict wa wq s0 ia q).risk_score =
        clipQ (clipQ s0 0 1 * wa + min (clipQ (nan_to_num q) 0 500 / 500) 1 * wq) 0 1 := rfl
    obtain ⟨hs0, hs1⟩ := clipQ_mem s0 0 1 (by norm_num)
    obtain ⟨ha0, ha1⟩ := clipQ_mem (nan_to_num q) 0 500 (by norm_num)
    obtain ⟨hr0, hr1⟩ :=
      clipQ_mem (clipQ s0 0 1 * wa + min (clipQ (nan_to_num q) 0 500 / 500) 1 * wq)
        0 1 (by norm_num)
    refine ⟨by rw [hs]; exact hs0, by rw [hs]; exact hs1, by rw [hq]; exact ha0,
      by rw [hq]; exact ha1, by rw [hr]; exact hr0, by rw [hr]; exact hr1, ?_⟩
    have hrl : (ensemble_predict wa wq s0 ia q).risk_level =
        if (if ia = true ∧ clipQ s0 0 1 < 0.3 then false else ia) = true then "HIGH"
        else classify_risk
          (clipQ s0 0 1 * wa + min (clipQ (nan_to_num q) 0 500 / 500) 1 * wq) := rfl
    rw [hrl]
    split_ifs <;> first | exact classify_risk_mem _ | simp

/-- The inter-breakpoint gaps of the EPA table in `calculate_aqi_from_pm25`:
PM2.5 values strictly between one band's upper bound and the next band's lower
bound match no band and fall through to 500. -/
def inGap (p : ℚ) : Prop :=
  (12 < p ∧ p < 12.1) ∨ (35.4 < p ∧ p < 35.5) ∨ (55.4 < p ∧ p < 55.5) ∨
  (150.4 < p ∧ p < 150.5) ∨ (250.4 < p ∧ p < 250.5)

/-- The pre-rounding value of the EPA interpolation (the `aqi` variable before
`round(aqi)`), extended with the literal return values 0 and 500 of the
non-band branches. -/
def aqiPre (p : ℚ) : ℚ :=
  if p < 0 then 0
  else if 0 ≤ p ∧ p ≤ 12 then (50 - 0) / (12 - 0) * (p - 0) + 0
  else if 12.1 ≤ p ∧ p ≤ 35.4 then (100 - 51) / (35.4 - 12.1) * (p - 12.1) + 51
  else if 35.5 ≤ p ∧ p ≤ 55.4 then (150 - 101) / (55.4 - 35.5) * (p - 35.5) + 101
  else if 55.5 ≤ p ∧ p ≤ 150.4 then (200 - 151) / (150.4 - 55.5) * (p - 55.5) + 151
  else if 150.5 ≤ p ∧ p ≤ 250.4 then (300 - 201) / (250.4 - 150.5) * (p - 150.5) + 201
  else if 250.5 ≤ p ∧ p ≤ 500.4 then (500 - 301) / (500.4 - 250.5) * (p - 250.5) + 301
  else 500

theorem aqi_fst_eq (p : ℚ) : (calculate_aqi_from_pm25 p).1 = pyRound (aqiPre p) := by
  have h0 : pyRound (0 : ℚ) = 0 := by simpa using pyRound_intCast 0
  have h500 : pyRound (500 : ℚ) = 500 := by simpa using pyRound_intCast 500
  unfold calculate_aqi_from_pm25 aqiPre
  split_ifs <;> simp [h0, h500]

theorem notGap_region (p : ℚ) (hg : ¬inGap p) :
    p < 0 ∨ (0 ≤ p ∧ p ≤ 12) ∨ ((12.1 : ℚ) ≤ p ∧ p ≤ 35.4) ∨
    ((35.5 : ℚ) ≤ p ∧ p ≤ 55.4) ∨ ((55.5 : ℚ) ≤ p ∧ p ≤ 150.4) ∨
    ((150.5 : ℚ) ≤ p ∧ p ≤ 250.4) ∨ ((250.5 : ℚ) ≤ p ∧ p ≤ 500.4) ∨ (500.4 : ℚ) < p := by
  unfold inGap at hg
  push_neg at hg
  obtain ⟨k1, k2, k3, k4, k5⟩ := hg
  rcases lt_or_le p 0 with h0 | h0
  · exact Or.inl h0
  rcases le_or_lt p 12 with h1 | h1
  · exact Or.inr (Or.inl ⟨h0, h1⟩)
  rcases le_or_lt p 35.4 with h2 | h2
  · exact Or.inr (Or.inr (Or.inl ⟨k1 h1, h2⟩))
  rcases le_or_lt p 55.4 with h3 | h3
  · exact Or.inr (Or.inr (Or.inr (Or.inl ⟨k2 h2, h3⟩)))
  rcases le_or_lt p 150.4 with h4 | h4
  · exact Or.inr (Or.inr (Or.inr (Or.inr (Or.inl ⟨k3 h3, h4⟩))))
  rcases le_or_lt p 250.4 with h5 | h5
  · exact Or.inr (Or.inr (Or.inr (Or.inr (Or.inr (Or.inl ⟨k4 h4, h5⟩)))))
  rcases le_or_lt p 500.4 with h6 | h6
  · exact Or.inr (Or.inr (Or.inr (Or.inr (Or.inr (Or.inr (Or.inl ⟨k5 h5, h6⟩))))))
  · exact Or.inr (Or.inr (Or.inr (Or.inr (Or.inr (Or.inr (Or.inr h6))))))

theorem aqiPre_neg {p : ℚ} (h : p < 0) : aqiPre p = 0 := by
  unfold aqiPre
  rw [if_pos h]

theorem aqiPre_b1 {p : ℚ} (h1 : 0 ≤ p) (h2 : p ≤ 12) :
    aqiPre p = (50 - 0) / (12 - 0) * (p - 0) + 0 := by
  unfold aqiPre
  rw [if_neg (not_lt.mpr h1), if_pos ⟨h1, h2⟩]

theorem aqiPre_b2 {p : ℚ} (h1 : (12.1 : ℚ) ≤ p) (h2 : p ≤ 35.4) :
    aqiPre p = (100 - 51) / (35.4 - 12.1) * (p - 12.1) + 51 := by
  unfold aqiPre
  rw [if_neg (not_lt.mpr (by linarith)), if_neg (by rintro ⟨a, b⟩; linarith),
    if_pos ⟨h1, h2⟩]

theorem aqiPre_b3 {p : ℚ} (h1 : (35.5 : ℚ) ≤ p) (h2 : p ≤ 55.4) :
    aqiPre p = (150 - 101) / (55.4 - 35.5) * (p - 35.5) + 101 := by
  unfold aqiPre
  rw [if_neg (not_lt.mpr (by linarith)), if_neg (by rintro ⟨a, b⟩; linarith),
    if_neg (by rintro ⟨a, b⟩; linarith), if_pos ⟨h1, h2⟩]

theorem aqiPre_b4 {p : ℚ} (h1 : (55.5 : ℚ) ≤ p) (h2 : p ≤ 150.4) :
    aqiPre p = (200 - 151) / (150.4 - 55.5) * (p - 55.5) + 151 := by
  unfold aqiPre
  rw [if_neg (not_lt.mpr (by linarith)), if_neg (by rintro ⟨a, b⟩; linarith),
    if_neg (by rintro ⟨a, b⟩; linarith), if_neg (by rintro ⟨a, b⟩; linarith),
    if_pos ⟨h1, h2⟩]

theorem aqiPre_b5 {p : ℚ} (h1 : (150.5 : ℚ) ≤ p) (h2 : p ≤ 250.4) :
    aqiPre p = (300 - 201) / (250.4 - 150.5) * (p - 150.5) + 201 := by
  unfold aqiPre
  rw [if_neg (not_lt.mpr (by linarith)), if_neg (by rintro ⟨a, b⟩; linarith),
    if_neg (by rintro ⟨a, b⟩; linarith), if_neg (by rintro ⟨a, b⟩; linarith),
    if_neg (by rintro ⟨a, b⟩; linarith), if_pos ⟨h1, h2⟩]

theorem aqiPre_b6 {p : ℚ} (h1 : (250.5 : ℚ) ≤ p) (h2 : p ≤ 500.4) :
    aqiPre p = (500 - 301) / (500.4 - 250.5) * (p - 250.5) + 301 := by
  unfold aqiPre
  rw [if_neg (not_lt.mpr (by linarith)), if_neg (by rintro ⟨a, b⟩; linarith),
    if_neg (by rintro ⟨a, b⟩; linarith), if_neg (by rintro ⟨a, b⟩; linarith),
    if_neg (by rintro ⟨a, b⟩; linarith), if_neg (by rintro ⟨a, b⟩; linarith),
    if_pos ⟨h1, h2⟩]

theorem aqiPre_top {p : ℚ} (h : (500.4 : ℚ) < p) : aqiPre p = 500 := by
  unfold aqiPre
  rw [if_neg (not_lt.mpr (by linarith)), if_neg (by rintro ⟨a, b⟩; linarith),
    if_neg (by rintro ⟨a, b⟩; linarith), if_neg (by rintro ⟨a, b⟩; linarith),
    if_neg (by rintro ⟨a, b⟩; linarith), if_neg (by rintro ⟨a, b⟩; linarith),
    if_neg (by rintro ⟨a, b⟩; linarith)]

theorem aqiPre_range (p : ℚ) : 0 ≤ aqiPre p ∧ aqiPre p ≤ 500 := by
  unfold aqiPre
  split_ifs with g1 g2 g3 g4 g5 g6 g7
  · norm_num
  · constructor <;> linarith [g2.1, g2.2]
  · constructor <;> linarith [g3.1, g3.2]
  · constructor <;> linarith [g4.1, g4.2]
  · constructor <;> linarith [g5.1, g5.2]
  · constructor <;> linarith [g6.1, g6.2]
  · constructor <;> linarith [g7.1, g7.2]
  · norm_num

theorem aqiPre_mono {p1 p2 : ℚ} (h : p1 ≤ p2) (hg1 : ¬inGap p1) (hg2 : ¬inGap p2) :
    aqiPre p1 ≤ aqiPre p2 := by
  rcases notGap_region p1 hg1 with r1 | r1 | r1 | r1 | r1 | r1 | r1 | r1
  · rw [aqiPre_neg r1]
    exact (aqiPre_range p2).1
  · obtain ⟨a1, b1⟩ := r1
    have e1 := aqiPre_b1 a1 b1
    rcases notGap_region p2 hg2 with r2 | r2 | r2 | r2 | r2 | r2 | r2 | r2
    · linarith
    · rw [e1, aqiPre_b1 r2.1 r2.2]; linarith [r2.1, r2.2]
    · rw [e1, aqiPre_b2 r2.1 r2.2]; linarith [r2.1, r2.2]
    · rw [e1, aqiPre_b3 r2.1 r2.2]; linarith [r2.1, r2.2]
    · rw [e1, aqiPre_b4 r2.1 r2.2]; linarith [r2.1, r2.2]
    · rw [e1, aqiPre_b5 r2.1 r2.2]; linarith [r2.1, r2.2]
    · rw [e1, aqiPre_b6 r2.1 r2.2]; linarith [r2.1, r2.2]
    · rw [e1, aqiPre_top r2]; linarith
  · obtain ⟨a1, b1⟩ := r1
    have e1 := aqiPre_b2 a1 b1
    rcases notGap_region p2 hg2 with r2 | r2 | r2 | r2 | r2 | r2 | r2 | r2
    · linarith
    · linarith [r2.2]
    · rw [e1, aqiPre_b2 r2.1 r2.2]; linarith [r2.1, r2.2]
    · rw [e1, aqiPre_b3 r2.1 r2.2]; linarith [r2.1, r2.2]
    · rw [e1, aqiPre_b4 r2.1 r2.2]; linarith [r2.1, r2.2]
    · rw [e1, aqiPre_b5 r2.1 r2.2]; linarith [r2.1, r2.2]
    · rw [e1, aqiPre_b6 r2.1 r2.2]; linarith [r2.1, r2.2]
    · rw [e1, aqiPre_top r2]; linarith
  · obtain ⟨a1, b1⟩ := r1
    have e1 := aqiPre_b3 a1 b1
    rcases notGap_region p2 hg2 with r2 | r2 | r2 | r2 | r2 | r2 | r2 | r2
    · linarith
    · linarith [r2.2]
    · linarith [r2.2]
    · rw [e1, aqiPre_b3 r2.1 r2.2]; linarith [r2.1, r2.2]
    · rw [e1, aqiPre_b4 r2.1 r2.2]; linarith [r2.1, r2.2]
    · rw [e1, aqiPre_b5 r2.1 r2.2]; linarith [r2.1, r2.2]
    · rw [e1, aqiPre_b6 r2.1 r2.2]; linarith [r2.1, r2.2]
    · rw [e1, aqiPre_top r2]; linarith
  · obtain ⟨a1, b1⟩ := r1
    have e1 := aqiPre_b4 a1 b1
    rcases notGap_region p2 hg2 with r2 | r2 | r2 | r2 | r2 | r2 | r2 | r2
    · linarith
    · linarith [r2.2]
    · linarith [r2.2]
    · linarith [r2.2]
    · rw [e1, aqiPre_b4 r2.1 r2.2]; linarith [r2.1, r2.2]
    · rw [e1, aqiPre_b5 r2.1 r2.2]; linarith [r2.1, r2.2]
    · rw [e1, aqiPre_b6 r2.1 r2.2]; linarith [r2.1, r2.2]
    · rw [e1, aqiPre_top r2]; linarith
  · obtain ⟨a1, b1⟩ := r1
    have e1 := aqiPre_b5 a1 b1
    rcases notGap_region p2 hg2 with r2 | r2 | r2 | r2 | r2 | r2 | r2 | r2
    · linarith
    · linarith [r2.2]
    · linarith [r2.2]
    · linarith [r2.2]
    · linarith [r2.2]
    · rw [e1, aqiPre_b5 r2.1 r2.2]; linarith [r2.1, r2.2]
    · rw [e1, aqiPre_b6 r2.1 r2.2]; linarith [r2.1, r2.2]
    · rw [e1, aqiPre_top r2]; linarith
  · obtain ⟨a1, b1⟩ := r1
    have e1 := aqiPre_b6 a1 b1
    rcases notGap_region p2 hg2 with r2 | r2 | r2 | r2 | r2 | r2 | r2 | r2
    · linarith
    · linarith [r2.2]
    · linarith [r2.2]
    · linarith [r2.2]
    · linarith [r2.2]
    · linarith [r2.2]
    · rw [e1, aqiPre_b6 r2.1 r2.2]; linarith [r2.1, r2.2]
    · rw [e1, aqiPre_top r2]; linarith
  · rcases notGap_region p2 hg2 with r2 | r2 | r2 | r2 | r2 | r2 | r2 | r2
    · linarith
    · linarith [r2.2]
    · linarith [r2.2]
    · linarith [r2.2]
    · linarith [r2.2]
    · linarith [r2.2]
    · linarith [r2.2]
    · rw [aqiPre_top r1, aqiPre_top r2]

theorem metric_score_above_mono {p1 p2 : ℚ} {rg : RangeSpec} (hr : rg.rmin ≤ rg.rmax)
    (hc : rg.rmax < rg.cmax) (h1 : rg.rmax ≤ p1) (h12 : p1 ≤ p2) :
    metric_score p1 rg ≤ metric_score p2 rg := by
  unfold metric_score
  have k1 : ¬(p1 < rg.rmin) := not_lt.mpr (by linarith)
  have k2 : ¬(p2 < rg.rmin) := not_lt.mpr (by linarith)
  rw [if_neg k1, if_neg k2]
  by_cases c1 : p1 > rg.rmax
  · have c2 : p2 > rg.rmax := by linarith
    rw [if_pos c1, if_pos c2]
    by_cases d1 : p1 > rg.cmax
    · rw [if_pos d1, if_pos (show p2 > rg.cmax by linarith)]
    · rw [if_neg d1]
      by_cases d2 : p2 > rg.cmax
      · rw [if_pos d2]
        exact min_le_right _ _
      · rw [if_neg d2]
        apply min_le_min _ le_rfl
        have hd : (0 : ℚ) < rg.cmax - rg.rmax := by linarith
        rw [div_le_div_iff₀ hd hd]
        exact mul_le_mul_of_nonneg_right (by linarith) (by linarith)
  · rw [if_neg c1]
    by_cases c2 : p2 > rg.rmax
    · rw [if_pos c2]
      by_cases d2 : p2 > rg.cmax
      · rw [if_pos d2]
        norm_num
      · rw [if_neg d2]
        exact le_min (div_nonneg (by linarith) (by linarith)) (by norm_num)
    · rw [if_neg c2]

/-- C2 counterexample: the EPA breakpoint table has a gap between 12.0 and
12.1; PM2.5 = 12.05 matches no band and falls through to AQI 500, while the
larger PM2.5 = 12.1 maps to AQI 51 — monotonicity fails. -/
theorem C2_counterexample :
    (12.05 : ℚ) ≤ 12.1 ∧
    (calculate_aqi_from_pm25 12.1).1 < (calculate_aqi_from_pm25 12.05).1 := by
  constructor
  · norm_num
  · norm_num [calculate_aqi_from_pm25, pyRound]

/-- C2 (amended): the EPA AQI computation is monotone in PM2.5 as long as
neither value lies in one of the table's inter-breakpoint gaps (such as
(12.0, 12.1), where the loop falls through to 500); and for PM2.5 at or above
its normal band maximum of 35, increasing PM2.5 with all other metrics held
fixed never decreases the rule-based anomaly score. -/
theorem C2_monotonicity :
    (∀ p1 p2 : ℚ, p1 ≤ p2 → ¬inGap p1 → ¬inGap p2 →
        (calculate_aqi_from_pm25 p1).1 ≤ (calculate_aqi_from_pm25 p2).1) ∧
    (∀ (r : Reading) (p1 p2 : ℚ), 35 ≤ p1 → p1 ≤ p2 →
        (calculate_anomaly_score { r with pm25 := p1 }).1 ≤
          (calculate_anomaly_score { r with pm25 := p2 }).1) := by
  constructor
  · intro p1 p2 h hg1 hg2
    rw [aqi_fst_eq, aqi_fst_eq]
    exact pyRound_mono (aqiPre_mono h hg1 hg2)
  · intro r p1 p2 h35 h12
    have hs : metric_score p1 pm25_range ≤ metric_score p2 pm25_range :=
      metric_score_above_mono (by norm_num [pm25_range]) (by norm_num [pm25_range])
        (by norm_num [pm25_range]; linarith) h12
    have hb : (if p1 > (50 : ℚ) ∧ r.pm10 > 75 then (0.1 : ℚ) else 0) ≤
        (if p2 > (50 : ℚ) ∧ r.pm10 > 75 then (0.1 : ℚ) else 0) := by
      split_ifs with x1 x2
      · exact le_rfl
      · exact absurd ⟨by linarith [x1.1], x1.2⟩ x2
      · norm_num
      · exact le_rfl
    simp only [calculate_anomaly_score]
    dsimp only
    apply pyRound3_mono
    apply min_le_min _ le_rfl
    linarith [hs, hb]

/-- Witness for C2: PM2.5 10 vs 11 (both inside the first band, no gap), and
the anomaly score of a reading at PM2.5 = 40 vs 60 with other metrics fixed. -/
theorem C2_monotonicity_witness :
    (calculate_aqi_from_pm25 10).1 ≤ (calculate_aqi_from_pm25 11).1 ∧
    (calculate_anomaly_score { (⟨25, 50, 675, 0.25, 40, 25⟩ : Reading) with pm25 := 40 }).1 ≤
      (calculate_anomaly_score { (⟨25, 50, 675, 0.25, 40, 25⟩ : Reading) with pm25 := 60 }).1 :=
  ⟨C2_monotonicity.1 10 11 (by norm_num) (by norm_num [inGap]) (by norm_num [inGap]),
    C2_monotonicity.2 ⟨25, 50, 675, 0.25, 40, 25⟩ 40 60 (by norm_num) (by norm_num)⟩
